import Mathlib

/-!
Verification of the vehicle-gate speed-measurement core of this repository:
a shallow embedding of src/utils.c (plate validation and speed arithmetic),
src/sensor_fsm.h (the sensor state machine) and src/sensor_thread.c (the
interrupt handlers and the timeout finalization wired to the gate sensors),
with theorems settling the specification's claims about them.

Machine integers are modelled as Nat/Int with explicit reductions modulo
2^32 (uint32_t) and 2^64 (uint64_t) exactly where the C code computes in
those types; timestamps (int64_t, from k_uptime_get) are modelled as Int.
-/

/-- Modulus of C uint32_t arithmetic, 2^32. -/
def UINT32_MOD : Nat := 4294967296

/-- Modulus of C uint64_t arithmetic, 2^64. -/
def UINT64_MOD : Nat := 18446744073709551616

/-- Modelled from the spec: the vehicle classes of common.h (the header is
not in the repository snapshot; the sensor path uses the light and heavy
classes only: at most 2 axles is light, else heavy). -/
inductive vehicle_type_t where
  | VEHICLE_LIGHT
  | VEHICLE_HEAVY
deriving DecidableEq

/-- The sensor phase enum of src/sensor_fsm.h lines 7-10 (duplicated
verbatim in src/sensor_thread.c lines 13-16). -/
inductive sensor_state_t where
  | SENSOR_IDLE
  | SENSOR_ACTIVE
deriving DecidableEq

/-- The FSM state of src/sensor_fsm.h lines 12-18: phase, the two int64_t
timestamps, the uint32_t axle count and the speed-measured flag.  The static
globals of src/sensor_thread.c lines 18-22 are the same five fields. -/
structure sensor_fsm_t where
  state : sensor_state_t
  start_time : Int
  end_time : Int
  axle_count : Nat
  speed_measured : Bool
deriving DecidableEq

/-- Modelled from the spec: the TransitRecord (sensor_data_t of common.h,
not in the repository snapshot); its five fields and their types are pinned
by the assignments in sensor_fsm_finalize and axle_timer_expiry:
int64_t timestamps, uint32_t duration_ms and axle_count, and the class. -/
structure sensor_data_t where
  timestamp_start : Int
  timestamp_end : Int
  duration_ms : Nat
  axle_count : Nat
  type : vehicle_type_t
deriving DecidableEq

/-- Character-level body of validate_plate, src/utils.c lines 10-21: a
7-character string, positions 0-2 in 'A'..'Z', position 3 in '0'..'9',
position 4 in 'A'..'Z', positions 5-6 in '0'..'9'; each source check is the
negation of the out-of-range test the C code returns false on. -/
def validate_plate_chars : List Char → Bool
  | [c0, c1, c2, c3, c4, c5, c6] =>
      !(c0 < 'A' || 'Z' < c0) && !(c1 < 'A' || 'Z' < c1) && !(c2 < 'A' || 'Z' < c2) &&
      !(c3 < '0' || '9' < c3) &&
      !(c4 < 'A' || 'Z' < c4) &&
      !(c5 < '0' || '9' < c5) && !(c6 < '0' || '9' < c6)
  | _ => false

/-- validate_plate of src/utils.c lines 10-21, on the character list of the
argument string (strlen != 7 is the fall-through false case). -/
def validate_plate (plate : String) : Bool :=
  validate_plate_chars plate.data

/-- The divisor expression of calculate_speed, src/utils.c line 34: the
product duration_ms * 10 is computed in uint32_t, hence reduced mod 2^32. -/
def calculate_speed_divisor (duration_ms : Nat) : Nat :=
  duration_ms * 10 % UINT32_MOD

/-- calculate_speed of src/utils.c lines 30-35: 0 when duration_ms == 0,
else ((uint64_t)distance_mm * 36) / (duration_ms * 10) cast to uint32_t.
The numerator is 64-bit, the divisor 32-bit, the quotient truncated to
uint32_t.  (In C a zero value of the wrapped divisor is an undefined
division; Lean's Nat division returns 0 there, and the divisor is kept as
the separate definition calculate_speed_divisor so that the zero-divisor
inputs can be exhibited.) -/
def calculate_speed (distance_mm duration_ms : Nat) : Nat :=
  if duration_ms = 0 then 0
  else distance_mm * 36 % UINT64_MOD / calculate_speed_divisor duration_ms % UINT32_MOD

/-- classify_axles of src/sensor_fsm.h lines 25-28. -/
def classify_axles (axle_count : Nat) : vehicle_type_t :=
  if axle_count ≤ 2 then .VEHICLE_LIGHT else .VEHICLE_HEAVY

/-- sensor_fsm_init of src/sensor_fsm.h lines 34-41; also the initial
values of the static globals of src/sensor_thread.c lines 18-22. -/
def sensor_fsm_init : sensor_fsm_t :=
  { state := .SENSOR_IDLE, start_time := 0, end_time := 0,
    axle_count := 0, speed_measured := false }

/-- sensor_fsm_handle_start of src/sensor_fsm.h lines 48-60: an entry edge
while idle opens a cycle (end_time is zeroed here); while active it only
increments the uint32_t axle count. -/
def sensor_fsm_handle_start (fsm : sensor_fsm_t) (timestamp_ms : Int) : sensor_fsm_t :=
  if fsm.state = .SENSOR_IDLE then
    { state := .SENSOR_ACTIVE, start_time := timestamp_ms, end_time := 0,
      axle_count := 1, speed_measured := false }
  else
    { fsm with axle_count := (fsm.axle_count + 1) % UINT32_MOD }

/-- sensor_fsm_handle_end of src/sensor_fsm.h lines 67-74: the first exit
edge of an active cycle records end_time and sets the flag; otherwise the
state is untouched. -/
def sensor_fsm_handle_end (fsm : sensor_fsm_t) (timestamp_ms : Int) : sensor_fsm_t :=
  if fsm.state = .SENSOR_ACTIVE ∧ fsm.speed_measured = false then
    { fsm with end_time := timestamp_ms, speed_measured := true }
  else fsm

/-- sensor_fsm_finalize of src/sensor_fsm.h lines 82-108: not active means
no record and no change; active means a record exactly when the speed was
measured and end_time > start_time, with duration_ms the uint32_t cast of
the int64_t difference, and the state reset to the zeroed idle value either
way. -/
def sensor_fsm_finalize (fsm : sensor_fsm_t) : sensor_fsm_t × Option sensor_data_t :=
  if fsm.state ≠ .SENSOR_ACTIVE then (fsm, none)
  else
    let out : Option sensor_data_t :=
      if fsm.speed_measured = true ∧ fsm.end_time > fsm.start_time then
        some { timestamp_start := fsm.start_time, timestamp_end := fsm.end_time,
               duration_ms := (fsm.end_time - fsm.start_time).toNat % UINT32_MOD,
               axle_count := fsm.axle_count,
               type := classify_axles fsm.axle_count }
      else none
    ({ state := .SENSOR_IDLE, start_time := 0, end_time := 0,
       axle_count := 0, speed_measured := false }, out)

/-- start_isr of src/sensor_thread.c lines 42-57, as a function of the five
global fields (the timer re-arm has no effect on them): while idle it sets
the phase, start_time, axle_count and flag but, unlike
sensor_fsm_handle_start, leaves end_time alone; while active it only
increments the uint32_t axle count. -/
def start_isr_step (s : sensor_fsm_t) (now : Int) : sensor_fsm_t :=
  if s.state = .SENSOR_IDLE then
    { s with state := .SENSOR_ACTIVE, start_time := now,
             axle_count := 1, speed_measured := false }
  else
    { s with axle_count := (s.axle_count + 1) % UINT32_MOD }

/-- end_isr of src/sensor_thread.c lines 65-70: same guard and effect as
sensor_fsm_handle_end. -/
def end_isr_step (s : sensor_fsm_t) (now : Int) : sensor_fsm_t :=
  if s.state = .SENSOR_ACTIVE ∧ s.speed_measured = false then
    { s with end_time := now, speed_measured := true }
  else s

/-- axle_timer_expiry of src/sensor_thread.c lines 76-108: while active it
emits a record exactly when the speed was measured and end_time >
start_time (duration_ms is the uint32_t cast of the difference, the class
the inline axle comparison), then sets only state = SENSOR_IDLE, leaving
the other four globals unchanged; while idle it does nothing. -/
def axle_timer_expiry_step (s : sensor_fsm_t) : sensor_fsm_t × Option sensor_data_t :=
  if s.state = .SENSOR_ACTIVE then
    if s.speed_measured = true ∧ s.end_time > s.start_time then
      ({ s with state := .SENSOR_IDLE },
       some { timestamp_start := s.start_time, timestamp_end := s.end_time,
              duration_ms := (s.end_time - s.start_time).toNat % UINT32_MOD,
              axle_count := s.axle_count,
              type := if s.axle_count ≤ 2 then .VEHICLE_LIGHT else .VEHICLE_HEAVY })
    else ({ s with state := .SENSOR_IDLE }, none)
  else (s, none)

/-- An event of the sensor station: an entry edge, an exit edge (each with
its k_uptime_get timestamp) or the expiry of the inactivity timer. -/
inductive gate_event where
  | entryEdge (t : Int)
  | exitEdge (t : Int)
  | timerExpiry
deriving DecidableEq

/-- One event of the station applied to the FSM fields, with the record the
timeout handler may emit. -/
def station_step (s : sensor_fsm_t) : gate_event → sensor_fsm_t × Option sensor_data_t
  | .entryEdge t => (start_isr_step s t, none)
  | .exitEdge t => (end_isr_step s t, none)
  | .timerExpiry => axle_timer_expiry_step s

/-- Specification apparatus (not code): the exact number of entry edges
observed since the last idle-to-active transition, tracked alongside the
run without any modular reduction. -/
def cycle_count_step (s : sensor_fsm_t) (k : Nat) : gate_event → Nat
  | .entryEdge _ => if s.state = .SENSOR_IDLE then 1 else k + 1
  | .exitEdge _ => k
  | .timerExpiry => k

/-- A run of the station over an event list, returning the final FSM state,
the final cycle entry count, and every emitted record paired with the entry
count of the cycle that produced it. -/
def station_run_counted :
    sensor_fsm_t → Nat → List gate_event → sensor_fsm_t × Nat × List (sensor_data_t × Nat)
  | s, k, [] => (s, k, [])
  | s, k, e :: es =>
      let kc := cycle_count_step s k e
      let sr := station_step s e
      let rest := station_run_counted sr.1 kc es
      (rest.1, rest.2.1, (sr.2.map (fun r => (r, kc))).toList ++ rest.2.2)

/-- A sequence of entry edges (timestamps in order) fed to the FSM of
src/sensor_fsm.h with no timeout in between. -/
def apply_starts (s : sensor_fsm_t) (ts : List Int) : sensor_fsm_t :=
  ts.foldl sensor_fsm_handle_start s

/-- A sequence of entry edges fed to the handlers of src/sensor_thread.c
with no timeout in between. -/
def apply_starts_isr (s : sensor_fsm_t) (ts : List Int) : sensor_fsm_t :=
  ts.foldl start_isr_step s

/-- Specification apparatus: the run invariant tying the uint32_t axle
count of an active state to the true entry count of its cycle. -/
def StationInv (s : sensor_fsm_t) (k : Nat) : Prop :=
  s.state = .SENSOR_ACTIVE → s.axle_count = k % UINT32_MOD ∧ 1 ≤ k

/-- Specification apparatus: an emitted record carries the uint32_t
reduction of its cycle's true entry count, and its class is
classify_axles of its axle count. -/
def RecordOk (r : sensor_data_t) (n : Nat) : Prop :=
  r.axle_count = n % UINT32_MOD ∧ 1 ≤ n ∧ r.type = classify_axles r.axle_count

/-- The in-range check of one letter position of validate_plate equals the
standard uppercase-ASCII test. -/
lemma plate_upper_range (c : Char) : (!(c < 'A' || 'Z' < c)) = true ↔ c.isUpper = true := by
  have hA : ('A').val.toBitVec.toNat = 65 := rfl
  have hZ : ('Z').val.toBitVec.toNat = 90 := rfl
  have h65 : ((65 : UInt32)).toBitVec.toNat = 65 := rfl
  have h90 : ((90 : UInt32)).toBitVec.toNat = 90 := rfl
  simp only [Char.isUpper, Char.lt_def, Char.le_def, UInt32.lt_def, UInt32.le_def,
    BitVec.lt_def, BitVec.le_def, hA, hZ, h65, h90, Bool.not_eq_true', Bool.or_eq_false_iff,
    decide_eq_false_iff_not, not_lt, Bool.and_eq_true, decide_eq_true_eq, ge_iff_le]

/-- The in-range check of one digit position of validate_plate equals the
standard decimal-digit test. -/
lemma plate_digit_range (c : Char) : (!(c < '0' || '9' < c)) = true ↔ c.isDigit = true := by
  have h0 : ('0').val.toBitVec.toNat = 48 := rfl
  have h9 : ('9').val.toBitVec.toNat = 57 := rfl
  have h48 : ((48 : UInt32)).toBitVec.toNat = 48 := rfl
  have h57 : ((57 : UInt32)).toBitVec.toNat = 57 := rfl
  simp only [Char.isDigit, Char.lt_def, Char.le_def, UInt32.lt_def, UInt32.le_def,
    BitVec.lt_def, BitVec.le_def, h0, h9, h48, h57, Bool.not_eq_true', Bool.or_eq_false_iff,
    decide_eq_false_iff_not, not_lt, Bool.and_eq_true, decide_eq_true_eq, ge_iff_le]

/-- C5: validate_plate returns true exactly for 7-character strings of
shape LLL N L NN (three uppercase letters, one digit, one uppercase
letter, two digits), any length or class mismatch failing, and the four
example plates behave as the spec states. -/
theorem validate_plate_spec :
    (∀ s : String, validate_plate s = true ↔
      ∃ c0 c1 c2 c3 c4 c5 c6 : Char, s.data = [c0, c1, c2, c3, c4, c5, c6] ∧
        c0.isUpper = true ∧ c1.isUpper = true ∧ c2.isUpper = true ∧
        c3.isDigit = true ∧ c4.isUpper = true ∧ c5.isDigit = true ∧ c6.isDigit = true) ∧
    validate_plate "ABC1D23" = true ∧ validate_plate "ABC123D" = false ∧
    validate_plate "abc1d23" = false ∧ validate_plate "ABC1D2" = false := by
  refine ⟨?_, by decide, by decide, by decide, by decide⟩
  intro s
  rw [validate_plate]
  generalize s.data = l
  rcases l with _ | ⟨a, _ | ⟨b, _ | ⟨c, _ | ⟨d, _ | ⟨e, _ | ⟨f, _ | ⟨g, _ | r⟩⟩⟩⟩⟩⟩⟩
  case nil => simp [validate_plate_chars]
  case cons.nil => simp [validate_plate_chars]
  case cons.cons.nil => simp [validate_plate_chars]
  case cons.cons.cons.nil => simp [validate_plate_chars]
  case cons.cons.cons.cons.nil => simp [validate_plate_chars]
  case cons.cons.cons.cons.cons.nil => simp [validate_plate_chars]
  case cons.cons.cons.cons.cons.cons.nil => simp [validate_plate_chars]
  case cons.cons.cons.cons.cons.cons.cons.cons => simp [validate_plate_chars]
  case cons.cons.cons.cons.cons.cons.cons.nil =>
    simp only [validate_plate_chars, Bool.and_eq_true, plate_upper_range, plate_digit_range,
      List.cons.injEq]
    constructor
    · rintro ⟨⟨⟨⟨⟨⟨h1, h2⟩, h3⟩, h4⟩, h5⟩, h6⟩, h7⟩
      exact ⟨a, b, c, d, e, f, g, ⟨rfl, rfl, rfl, rfl, rfl, rfl, rfl, trivial⟩,
        h1, h2, h3, h4, h5, h6, h7⟩
    · rintro ⟨c0, c1, c2, c3, c4, c5, c6, ⟨rfl, rfl, rfl, rfl, rfl, rfl, rfl, -⟩,
        h1, h2, h3, h4, h5, h6, h7⟩
      exact ⟨⟨⟨⟨⟨⟨h1, h2⟩, h3⟩, h4⟩, h5⟩, h6⟩, h7⟩

/-- C2 (amended): with the divisor product free of 32-bit wrap-around
(duration_ms * 10 < 2^32, i.e. duration_ms <= 429496729) and distance_mm
up to 10,000,000, calculate_speed suffers no overflow anywhere and returns
the exact truncation of 36 * distance / (10 * duration), the mathematical
floor of distance_mm * 3.6 / duration_ms. -/
theorem calculate_speed_exact_of_no_wrap (d t : Nat) (hd : d ≤ 10000000)
    (ht1 : 1 ≤ t) (ht2 : t ≤ 429496729) :
    calculate_speed d t = d * 36 / (t * 10) ∧
    d * 36 < UINT64_MOD ∧ t * 10 < UINT32_MOD ∧ d * 36 / (t * 10) < UINT32_MOD := by
  have h64 : d * 36 < UINT64_MOD := by unfold UINT64_MOD; omega
  have h32 : t * 10 < UINT32_MOD := by unfold UINT32_MOD; omega
  have hq : d * 36 / (t * 10) < UINT32_MOD :=
    lt_of_le_of_lt (Nat.div_le_self _ _) (by unfold UINT32_MOD; omega)
  have ht0 : ¬ t = 0 := by omega
  refine ⟨?_, h64, h32, hq⟩
  rw [calculate_speed, calculate_speed_divisor, if_neg ht0,
    Nat.mod_eq_of_lt h64, Nat.mod_eq_of_lt h32, Nat.mod_eq_of_lt hq]

/-- Witness for C2 at the spec's end-to-end test point. -/
theorem calculate_speed_exact_witness :
    calculate_speed 3000 200 = 3000 * 36 / (200 * 10) :=
  (calculate_speed_exact_of_no_wrap 3000 200 (by norm_num) (by norm_num) (by norm_num)).1

/-- Counterexample for C2 as stated: at distance_mm = 10,000,000 and
duration_ms = 429496730 (a uint32 value and at least 1) the 32-bit product
duration_ms * 10 wraps to 4, and the code returns 90,000,000 where the
mathematically correct truncated speed is 0. -/
theorem calculate_speed_denominator_wrap :
    calculate_speed 10000000 429496730 = 90000000 ∧
    10000000 * 36 / (429496730 * 10) = 0 ∧ (90000000 : Nat) ≠ 0 :=
  ⟨by decide, by decide, by norm_num⟩

/-- C3: the guard duration_ms == 0 does not make the division safe: at the
valid uint32 input duration_ms = 2147483648 = 2^31 (nonzero, so the guard
passes) the 32-bit divisor duration_ms * 10 wraps to exactly 0, so the C
division is a division by zero. -/
theorem calculate_speed_zero_divisor_reachable :
    (2147483648 : Nat) ≠ 0 ∧ (2147483648 : Nat) < UINT32_MOD ∧
    calculate_speed_divisor 2147483648 = 0 :=
  ⟨by norm_num, by norm_num [UINT32_MOD], by decide⟩

/-- C4 (amended): calculate_speed returns the exact truncation of
distance_mm * 3.6 / duration_ms for every uint32 distance and every
duration in 1..429496729 whose true quotient fits in uint32; outside that,
the 32-bit divisor wraps or the uint32 cast truncates the quotient.  The
spec's three concrete values hold. -/
theorem calculate_speed_truncation :
    (∀ d t : Nat, d < UINT32_MOD → 1 ≤ t → t ≤ 429496729 →
      d * 36 / (t * 10) < UINT32_MOD → calculate_speed d t = d * 36 / (t * 10)) ∧
    calculate_speed 3000 200 = 54 ∧
    calculate_speed 0 1000 = 0 ∧
    (∀ d : Nat, calculate_speed d 0 = 0) := by
  refine ⟨?_, by decide, by decide, fun d => by rw [calculate_speed, if_pos rfl]⟩
  intro d t hd ht1 ht2 hq
  have h64 : d * 36 < UINT64_MOD := by unfold UINT32_MOD at hd; unfold UINT64_MOD; omega
  have h32 : t * 10 < UINT32_MOD := by unfold UINT32_MOD; omega
  have ht0 : ¬ t = 0 := by omega
  rw [calculate_speed, calculate_speed_divisor, if_neg ht0,
    Nat.mod_eq_of_lt h64, Nat.mod_eq_of_lt h32, Nat.mod_eq_of_lt hq]

/-- Counterexample for C4 as stated: at distance_mm = 4294967295 (a valid
uint32) and duration_ms = 1, the truncation of distance * 3.6 / duration is
15461882262, which does not fit in uint32; the code's final cast reduces it
mod 2^32 and calculate_speed returns 2576980374 instead. -/
theorem calculate_speed_cast_truncates :
    calculate_speed 4294967295 1 = 2576980374 ∧
    4294967295 * 36 / (1 * 10) = 15461882262 ∧
    (2576980374 : Nat) ≠ 15461882262 :=
  ⟨by decide, by decide, by norm_num⟩

/-- C1 (amended): at a timeout finalization of an Active cycle — in the
header FSM and in the thread handler alike — a record is produced iff
speed_measured holds and end_time > start_time; every produced record
carries the original timestamps, satisfies end_time > start_time, and its
duration_ms is the uint32 cast (end_time - start_time) mod 2^32, which
equals end_time - start_time whenever the difference is below 2^32. -/
theorem sensor_finalize_record_iff (fsm : sensor_fsm_t)
    (h : fsm.state = .SENSOR_ACTIVE) :
    ((sensor_fsm_finalize fsm).2.isSome = true ↔
      fsm.speed_measured = true ∧ fsm.end_time > fsm.start_time) ∧
    (∀ r, (sensor_fsm_finalize fsm).2 = some r →
      r.timestamp_start = fsm.start_time ∧ r.timestamp_end = fsm.end_time ∧
      r.timestamp_end > r.timestamp_start ∧
      r.duration_ms = (fsm.end_time - fsm.start_time).toNat % UINT32_MOD ∧
      (fsm.end_time - fsm.start_time < (UINT32_MOD : Int) →
        (r.duration_ms : Int) = fsm.end_time - fsm.start_time)) ∧
    ((axle_timer_expiry_step fsm).2.isSome = true ↔
      fsm.speed_measured = true ∧ fsm.end_time > fsm.start_time) ∧
    (∀ r, (axle_timer_expiry_step fsm).2 = some r →
      r.timestamp_start = fsm.start_time ∧ r.timestamp_end = fsm.end_time ∧
      r.timestamp_end > r.timestamp_start ∧
      r.duration_ms = (fsm.end_time - fsm.start_time).toNat % UINT32_MOD ∧
      (fsm.end_time - fsm.start_time < (UINT32_MOD : Int) →
        (r.duration_ms : Int) = fsm.end_time - fsm.start_time)) := by
  by_cases hc : fsm.speed_measured = true ∧ fsm.end_time > fsm.start_time
  · have hfin : (sensor_fsm_finalize fsm).2 =
        some { timestamp_start := fsm.start_time, timestamp_end := fsm.end_time,
               duration_ms := (fsm.end_time - fsm.start_time).toNat % UINT32_MOD,
               axle_count := fsm.axle_count, type := classify_axles fsm.axle_count } := by
      simp [sensor_fsm_finalize, h, hc]
    have hexp : (axle_timer_expiry_step fsm).2 =
        some { timestamp_start := fsm.start_time, timestamp_end := fsm.end_time,
               duration_ms := (fsm.end_time - fsm.start_time).toNat % UINT32_MOD,
               axle_count := fsm.axle_count,
               type := if fsm.axle_count ≤ 2 then .VEHICLE_LIGHT else .VEHICLE_HEAVY } := by
      simp [axle_timer_expiry_step, h, hc]
    rw [hfin, hexp]
    refine ⟨by simp [hc], ?_, by simp [hc], ?_⟩ <;>
    · rintro r hr
      rw [Option.some_inj] at hr
      subst hr
      refine ⟨rfl, rfl, hc.2, rfl, ?_⟩
      intro hlt
      have h0 : (0 : Int) < fsm.end_time - fsm.start_time := by
        have := hc.2
        omega
      simp only [UINT32_MOD] at hlt ⊢
      omega
  · have hfin : (sensor_fsm_finalize fsm).2 = none := by
      simp [sensor_fsm_finalize, h, hc]
    have hexp : (axle_timer_expiry_step fsm).2 = none := by
      simp [axle_timer_expiry_step, h, hc]
    rw [hfin, hexp]
    simp [hc]

/-- Witness for C1: a measured cycle with end_time 300 > start_time 100
does produce a record. -/
theorem sensor_finalize_record_iff_witness :
    (sensor_fsm_finalize { state := .SENSOR_ACTIVE, start_time := 100, end_time := 300,
                           axle_count := 2, speed_measured := true }).2.isSome = true :=
  (sensor_finalize_record_iff _ rfl).1.mpr ⟨rfl, by norm_num⟩

/-- Counterexample for C1 as stated: finalizing the Active cycle with
start_time 0 and end_time 2^32 = 4294967296 produces a record whose
duration_ms is 0, not end_time - start_time. -/
theorem sensor_finalize_duration_cast :
    (sensor_fsm_finalize { state := .SENSOR_ACTIVE, start_time := 0, end_time := 4294967296,
                           axle_count := 1, speed_measured := true }).2.map
        (fun r => r.duration_ms) = some 0 ∧
    ((0 : Int) ≠ 4294967296 - 0) :=
  ⟨by decide, by norm_num⟩

/-- C6 (amended): sensor_fsm_finalize resets an Active state to the zeroed
Idle value and leaves an Idle state untouched with no record, so a second
finalization produces nothing and changes nothing; the thread's
axle_timer_expiry resets only the phase to Idle, leaving the other four
fields unchanged, and likewise does nothing on an Idle state, so a second
expiry also produces nothing and changes nothing. -/
theorem sensor_finalize_reset (fsm : sensor_fsm_t) :
    (fsm.state = .SENSOR_ACTIVE → (sensor_fsm_finalize fsm).1 = sensor_fsm_init) ∧
    (fsm.state = .SENSOR_IDLE → sensor_fsm_finalize fsm = (fsm, none)) ∧
    (fsm.state = .SENSOR_ACTIVE →
      sensor_fsm_finalize (sensor_fsm_finalize fsm).1 = ((sensor_fsm_finalize fsm).1, none)) ∧
    (fsm.state = .SENSOR_ACTIVE →
      (axle_timer_expiry_step fsm).1 = { fsm with state := .SENSOR_IDLE }) ∧
    (fsm.state = .SENSOR_IDLE → axle_timer_expiry_step fsm = (fsm, none)) ∧
    (fsm.state = .SENSOR_ACTIVE →
      axle_timer_expiry_step (axle_timer_expiry_step fsm).1 =
        ((axle_timer_expiry_step fsm).1, none)) := by
  refine ⟨?_, ?_, ?_, ?_, ?_, ?_⟩ <;> intro h
  · simp [sensor_fsm_finalize, h, sensor_fsm_init]
  · simp [sensor_fsm_finalize, h]
  · have h1 : (sensor_fsm_finalize fsm).1 = sensor_fsm_init := by
      simp [sensor_fsm_finalize, h, sensor_fsm_init]
    rw [h1]
    simp [sensor_fsm_finalize, sensor_fsm_init]
  · by_cases hc : fsm.speed_measured = true ∧ fsm.end_time > fsm.start_time <;>
      simp [axle_timer_expiry_step, h, hc]
  · simp [axle_timer_expiry_step, h]
  · have h1 : (axle_timer_expiry_step fsm).1 = { fsm with state := .SENSOR_IDLE } := by
      by_cases hc : fsm.speed_measured = true ∧ fsm.end_time > fsm.start_time <;>
        simp [axle_timer_expiry_step, h, hc]
    rw [h1]
    simp [axle_timer_expiry_step]

/-- Counterexample for C6 as stated: the thread's timeout handler, applied
to an Active measured state with start 5, end 7 and 3 axles, leaves
start_time = 5, end_time = 7, axle_count = 3 and speed_measured = true in
place, so the post-finalization state is not the zeroed Idle value. -/
theorem axle_timer_expiry_stale_fields :
    (axle_timer_expiry_step { state := .SENSOR_ACTIVE, start_time := 5, end_time := 7,
                              axle_count := 3, speed_measured := true }).1 =
      { state := .SENSOR_IDLE, start_time := 5, end_time := 7,
        axle_count := 3, speed_measured := true } ∧
    (3 : Nat) ≠ 0 ∧ (5 : Int) ≠ 0 ∧ (7 : Int) ≠ 0 ∧ true ≠ false :=
  ⟨by decide, by norm_num, by norm_num, by norm_num, by simp⟩

/-- C8: exit-edge handling is first-exit-wins, identically in the header
FSM and the thread handler: the first exit edge of an Active unmeasured
cycle records end_time and sets speed_measured; once speed_measured holds,
an exit edge changes nothing at all; and an exit edge while Idle changes
nothing at all. -/
theorem exit_edge_first_wins (fsm : sensor_fsm_t) (t : Int) :
    (fsm.state = .SENSOR_ACTIVE → fsm.speed_measured = false →
      sensor_fsm_handle_end fsm t = { fsm with end_time := t, speed_measured := true } ∧
      end_isr_step fsm t = { fsm with end_time := t, speed_measured := true }) ∧
    (fsm.speed_measured = true →
      sensor_fsm_handle_end fsm t = fsm ∧ end_isr_step fsm t = fsm) ∧
    (fsm.state = .SENSOR_IDLE →
      sensor_fsm_handle_end fsm t = fsm ∧ end_isr_step fsm t = fsm) := by
  refine ⟨fun h1 h2 => ?_, fun h1 => ?_, fun h1 => ?_⟩
  · constructor <;> simp [sensor_fsm_handle_end, end_isr_step, h1, h2]
  · constructor <;> simp [sensor_fsm_handle_end, end_isr_step, h1]
  · constructor <;> simp [sensor_fsm_handle_end, end_isr_step, h1]

/-- C10: an entry edge on an Active state changes only axle_count (to its
uint32 successor): phase, start_time, end_time and speed_measured are all
left unchanged, identically in the header FSM and the thread handler. -/
theorem entry_edge_active_frame (fsm : sensor_fsm_t) (t : Int)
    (h : fsm.state = .SENSOR_ACTIVE) :
    (sensor_fsm_handle_start fsm t).state = fsm.state ∧
    (sensor_fsm_handle_start fsm t).start_time = fsm.start_time ∧
    (sensor_fsm_handle_start fsm t).end_time = fsm.end_time ∧
    (sensor_fsm_handle_start fsm t).speed_measured = fsm.speed_measured ∧
    (sensor_fsm_handle_start fsm t).axle_count = (fsm.axle_count + 1) % UINT32_MOD ∧
    (start_isr_step fsm t).state = fsm.state ∧
    (start_isr_step fsm t).start_time = fsm.start_time ∧
    (start_isr_step fsm t).end_time = fsm.end_time ∧
    (start_isr_step fsm t).speed_measured = fsm.speed_measured ∧
    (start_isr_step fsm t).axle_count = (fsm.axle_count + 1) % UINT32_MOD := by
  simp [sensor_fsm_handle_start, start_isr_step, h]

/-- Witness for C10: an entry edge at time 9 on an Active cycle started at
time 3 leaves start_time = 3. -/
theorem entry_edge_active_frame_witness :
    (sensor_fsm_handle_start { state := .SENSOR_ACTIVE, start_time := 3, end_time := 0,
                               axle_count := 1, speed_measured := false } 9).start_time = 3 :=
  (entry_edge_active_frame _ 9 rfl).2.1

/-- Helper: on an Active state an entry edge of the header FSM is exactly a
uint32 increment of axle_count. -/
lemma handle_start_on_active {s : sensor_fsm_t} (t : Int) (h : s.state = .SENSOR_ACTIVE) :
    sensor_fsm_handle_start s t = { s with axle_count := (s.axle_count + 1) % UINT32_MOD } := by
  simp [sensor_fsm_handle_start, h]

/-- Helper: on an Active state an entry edge of the thread handler is
exactly a uint32 increment of axle_count. -/
lemma start_isr_on_active {s : sensor_fsm_t} (t : Int) (h : s.state = .SENSOR_ACTIVE) :
    start_isr_step s t = { s with axle_count := (s.axle_count + 1) % UINT32_MOD } := by
  simp [start_isr_step, h]

/-- Helper: the uint32 modulus is positive. -/
lemma uint32_mod_pos : 0 < UINT32_MOD := by norm_num [UINT32_MOD]

/-- Helper: a run of entry edges from an Active state only moves axle_count
forward by the number of edges, mod 2^32. -/
lemma apply_starts_on_active : ∀ (ts : List Int) (s : sensor_fsm_t),
    s.state = .SENSOR_ACTIVE → s.axle_count < UINT32_MOD →
    apply_starts s ts = { s with axle_count := (s.axle_count + ts.length) % UINT32_MOD } := by
  intro ts
  induction ts with
  | nil =>
      intro s h hb
      simp [apply_starts, Nat.mod_eq_of_lt hb]
  | cons t ts ih =>
      intro s h hb
      have hstep : apply_starts s (t :: ts) = apply_starts (sensor_fsm_handle_start s t) ts :=
        rfl
      have hih := ih { s with axle_count := (s.axle_count + 1) % UINT32_MOD } h
        (Nat.mod_lt _ uint32_mod_pos)
      rw [hstep, handle_start_on_active t h, hih]
      have hnum : ((s.axle_count + 1) % UINT32_MOD + ts.length) % UINT32_MOD
          = (s.axle_count + (t :: ts).length) % UINT32_MOD := by
        rw [Nat.mod_add_mod, List.length_cons]
        congr 1
        omega
      simp [hnum]

/-- Helper: the same entry-run lemma for the thread handler. -/
lemma apply_starts_isr_on_active : ∀ (ts : List Int) (s : sensor_fsm_t),
    s.state = .SENSOR_ACTIVE → s.axle_count < UINT32_MOD →
    apply_starts_isr s ts = { s with axle_count := (s.axle_count + ts.length) % UINT32_MOD } := by
  intro ts
  induction ts with
  | nil =>
      intro s h hb
      simp [apply_starts_isr, Nat.mod_eq_of_lt hb]
  | cons t ts ih =>
      intro s h hb
      have hstep : apply_starts_isr s (t :: ts) = apply_starts_isr (start_isr_step s t) ts :=
        rfl
      have hih := ih { s with axle_count := (s.axle_count + 1) % UINT32_MOD } h
        (Nat.mod_lt _ uint32_mod_pos)
      rw [hstep, start_isr_on_active t h, hih]
      have hnum : ((s.axle_count + 1) % UINT32_MOD + ts.length) % UINT32_MOD
          = (s.axle_count + (t :: ts).length) % UINT32_MOD := by
        rw [Nat.mod_add_mod, List.length_cons]
        congr 1
        omega
      simp [hnum]

/-- C7 (amended): from an Idle state, a nonempty run of entry edges with no
timeout in between leaves the FSM Active with start_time the first edge's
timestamp and speed_measured cleared, and axle_count equal to the number of
edges reduced mod 2^32 — hence equal to the number of edges whenever that
number is below 2^32.  This holds for the header FSM and, for the same
fields, for the thread handler. -/
theorem axle_count_counts_entries (s : sensor_fsm_t) (t : Int) (ts : List Int)
    (h : s.state = .SENSOR_IDLE) :
    (apply_starts s (t :: ts)).state = .SENSOR_ACTIVE ∧
    (apply_starts s (t :: ts)).start_time = t ∧
    (apply_starts s (t :: ts)).speed_measured = false ∧
    (apply_starts s (t :: ts)).axle_count = (t :: ts).length % UINT32_MOD ∧
    ((t :: ts).length < UINT32_MOD → (apply_starts s (t :: ts)).axle_count = (t :: ts).length) ∧
    (apply_starts_isr s (t :: ts)).state = .SENSOR_ACTIVE ∧
    (apply_starts_isr s (t :: ts)).start_time = t ∧
    (apply_starts_isr s (t :: ts)).speed_measured = false ∧
    (apply_starts_isr s (t :: ts)).axle_count = (t :: ts).length % UINT32_MOD := by
  have hfirst : sensor_fsm_handle_start s t =
      { state := .SENSOR_ACTIVE, start_time := t, end_time := 0,
        axle_count := 1, speed_measured := false } := by
    simp [sensor_fsm_handle_start, h]
  have hfirst2 : start_isr_step s t =
      { s with state := .SENSOR_ACTIVE, start_time := t,
               axle_count := 1, speed_measured := false } := by
    simp [start_isr_step, h]
  have hone : (1 : Nat) < UINT32_MOD := by norm_num [UINT32_MOD]
  have hrun : apply_starts s (t :: ts) =
      { state := .SENSOR_ACTIVE, start_time := t, end_time := 0,
        axle_count := (1 + ts.length) % UINT32_MOD, speed_measured := false } := by
    have hstep : apply_starts s (t :: ts) = apply_starts (sensor_fsm_handle_start s t) ts := rfl
    rw [hstep, hfirst, apply_starts_on_active ts
      { state := .SENSOR_ACTIVE, start_time := t, end_time := 0,
        axle_count := 1, speed_measured := false } rfl hone]
  have hrun2 : apply_starts_isr s (t :: ts) =
      { s with state := .SENSOR_ACTIVE, start_time := t,
               axle_count := (1 + ts.length) % UINT32_MOD, speed_measured := false } := by
    have hstep : apply_starts_isr s (t :: ts) = apply_starts_isr (start_isr_step s t) ts := rfl
    rw [hstep, hfirst2, apply_starts_isr_on_active ts
      { s with state := .SENSOR_ACTIVE, start_time := t,
               axle_count := 1, speed_measured := false } rfl hone]
  have hlen : (1 + ts.length) = (t :: ts).length := by
    rw [List.length_cons]
    omega
  rw [hrun, hrun2, hlen]
  exact ⟨rfl, rfl, rfl, rfl, fun hlt => Nat.mod_eq_of_lt hlt, rfl, rfl, rfl, rfl⟩

/-- Witness for C7: three entry edges from the initial state count three
axles. -/
theorem axle_count_counts_entries_witness :
    (apply_starts sensor_fsm_init (0 :: [5, 12])).axle_count = 3 := by
  have h := (axle_count_counts_entries sensor_fsm_init 0 [5, 12] rfl).2.2.2.2.1
  simpa using h (by norm_num [UINT32_MOD])

/-- Counterexample for C7 as stated: after exactly 2^32 entry edges with no
timeout, the uint32 axle counter has wrapped to 0, not 2^32. -/
theorem axle_count_wraparound :
    (apply_starts sensor_fsm_init (List.replicate 4294967296 0)).axle_count = 0 ∧
    (List.replicate 4294967296 (0 : Int)).length = 4294967296 ∧
    (0 : Nat) ≠ 4294967296 := by
  refine ⟨?_, by rw [List.length_replicate], by norm_num⟩
  have hsplit : (4294967296 : Nat) = 4294967295 + 1 := by norm_num
  rw [hsplit, List.replicate_succ, apply_starts, List.foldl_cons]
  have hfirst : sensor_fsm_handle_start sensor_fsm_init 0 =
      { state := .SENSOR_ACTIVE, start_time := 0, end_time := 0,
        axle_count := 1, speed_measured := false } := by
    simp [sensor_fsm_handle_start, sensor_fsm_init]
  rw [hfirst]
  have hrest := apply_starts_on_active (List.replicate 4294967295 0)
    { state := .SENSOR_ACTIVE, start_time := 0, end_time := 0,
      axle_count := 1, speed_measured := false } rfl (by norm_num [UINT32_MOD])
  rw [apply_starts] at hrest
  rw [hrest]
  rw [List.length_replicate]
  rfl

/-- Helper: one station event preserves the cycle-count invariant, and any
record it emits is correct for the current cycle count. -/
lemma station_step_inv (s : sensor_fsm_t) (k : Nat) (e : gate_event) (h : StationInv s k) :
    StationInv (station_step s e).1 (cycle_count_step s k e) ∧
    (∀ r, (station_step s e).2 = some r → RecordOk r (cycle_count_step s k e)) := by
  cases e with
  | entryEdge t =>
      refine ⟨?_, by intro r hr; simp [station_step] at hr⟩
      by_cases hs : s.state = .SENSOR_IDLE
      · intro hact
        refine ⟨?_, ?_⟩ <;> simp [station_step, start_isr_step, cycle_count_step, hs]
        norm_num [UINT32_MOD]
      · have hsA : s.state = .SENSOR_ACTIVE := by
          cases hst : s.state
          · exact absurd hst hs
          · rfl
        intro hact
        obtain ⟨h1, h2⟩ := h hsA
        constructor
        · show (start_isr_step s t).axle_count = (if s.state = .SENSOR_IDLE then 1 else k + 1) % UINT32_MOD
          rw [start_isr_on_active t hsA, if_neg hs]
          show (s.axle_count + 1) % UINT32_MOD = (k + 1) % UINT32_MOD
          rw [h1, Nat.mod_add_mod]
        · show 1 ≤ if s.state = .SENSOR_IDLE then 1 else k + 1
          rw [if_neg hs]
          omega
  | exitEdge t =>
      refine ⟨?_, by intro r hr; simp [station_step] at hr⟩
      by_cases hc : s.state = .SENSOR_ACTIVE ∧ s.speed_measured = false
      · intro hact
        have hgoal := h hc.1
        simpa [station_step, end_isr_step, hc, cycle_count_step] using hgoal
      · intro hact
        have hact2 : s.state = .SENSOR_ACTIVE := by
          simp [station_step, end_isr_step, hc, cycle_count_step] at hact
          exact hact
        have hgoal := h hact2
        simpa [station_step, end_isr_step, hc, cycle_count_step] using hgoal
  | timerExpiry =>
      by_cases hs : s.state = .SENSOR_ACTIVE
      · by_cases hc : s.speed_measured = true ∧ s.end_time > s.start_time
        · constructor
          · intro hact
            simp [station_step, axle_timer_expiry_step, hs, hc] at hact
          · intro r hr
            simp only [station_step, axle_timer_expiry_step, if_pos hs, if_pos hc,
              Option.some_inj] at hr
            obtain ⟨h1, h2⟩ := h hs
            subst hr
            refine ⟨?_, ?_, ?_⟩
            · simpa [cycle_count_step] using h1
            · show 1 ≤ cycle_count_step s k .timerExpiry
              simpa [cycle_count_step] using h2
            · show (if s.axle_count ≤ 2 then vehicle_type_t.VEHICLE_LIGHT
                  else vehicle_type_t.VEHICLE_HEAVY) = classify_axles s.axle_count
              rw [classify_axles]
        · constructor
          · intro hact
            simp [station_step, axle_timer_expiry_step, hs, hc] at hact
          · intro r hr
            simp [station_step, axle_timer_expiry_step, hs, hc] at hr
      · constructor
        · intro hact
          have : s.state = .SENSOR_ACTIVE := by
            simp [station_step, axle_timer_expiry_step, hs] at hact
          exact absurd this hs
        · intro r hr
          simp [station_step, axle_timer_expiry_step, hs] at hr

/-- Helper: the invariant and record correctness hold along every station
run from an invariant-satisfying start. -/
lemma station_run_counted_inv : ∀ (es : List gate_event) (s : sensor_fsm_t) (k : Nat),
    StationInv s k →
    StationInv (station_run_counted s k es).1 (station_run_counted s k es).2.1 ∧
    (∀ r n, (r, n) ∈ (station_run_counted s k es).2.2 → RecordOk r n) := by
  intro es
  induction es with
  | nil =>
      intro s k h
      exact ⟨h, by intro r n hm; simp [station_run_counted] at hm⟩
  | cons e es ih =>
      intro s k h
      obtain ⟨h1, h2⟩ := station_step_inv s k e h
      obtain ⟨ih1, ih2⟩ := ih (station_step s e).1 (cycle_count_step s k e) h1
      constructor
      · simpa [station_run_counted] using ih1
      · intro r n hm
        simp only [station_run_counted, List.mem_append] at hm
        rcases hm with hm | hm
        · rcases ho : (station_step s e).2 with _ | a
          · rw [ho] at hm
            exact absurd hm (by simp)
          · rw [ho] at hm
            simp only [Option.map_some', Option.toList, List.mem_singleton,
              Prod.mk.injEq] at hm
            obtain ⟨hr, hn⟩ := hm
            rw [hr, hn]
            exact h2 a ho
        · exact ih2 r n hm

/-- C9 (amended): in every state reachable from the initial Idle state by
entry edges, exit edges and timer expiries, phase Active implies that
axle_count is the number n of entry edges of the current cycle reduced mod
2^32, with n at least 1 — hence axle_count is at least 1 whenever n is
below 2^32; every emitted record likewise carries its cycle's entry count
mod 2^32 (at least 1 when the count is below 2^32) and a vehicle type that
is classify_axles of its axle count; and classify_axles yields Light
exactly on counts of at most 2. -/
theorem station_reachable_axle_count (es : List gate_event) :
    ((station_run_counted sensor_fsm_init 0 es).1.state = .SENSOR_ACTIVE →
      (station_run_counted sensor_fsm_init 0 es).1.axle_count
          = (station_run_counted sensor_fsm_init 0 es).2.1 % UINT32_MOD ∧
      1 ≤ (station_run_counted sensor_fsm_init 0 es).2.1 ∧
      ((station_run_counted sensor_fsm_init 0 es).2.1 < UINT32_MOD →
        1 ≤ (station_run_counted sensor_fsm_init 0 es).1.axle_count)) ∧
    (∀ r n, (r, n) ∈ (station_run_counted sensor_fsm_init 0 es).2.2 →
      r.axle_count = n % UINT32_MOD ∧ 1 ≤ n ∧
      (n < UINT32_MOD → 1 ≤ r.axle_count) ∧
      r.type = classify_axles r.axle_count) ∧
    (∀ a, classify_axles a = .VEHICLE_LIGHT ↔ a ≤ 2) := by
  have hinit : StationInv sensor_fsm_init 0 := by
    intro hact
    exact absurd hact (by simp [sensor_fsm_init])
  obtain ⟨h1, h2⟩ := station_run_counted_inv es sensor_fsm_init 0 hinit
  refine ⟨?_, ?_, ?_⟩
  · intro hact
    obtain ⟨ha, hk⟩ := h1 hact
    refine ⟨ha, hk, fun hlt => ?_⟩
    rw [ha, Nat.mod_eq_of_lt hlt]
    exact hk
  · intro r n hm
    obtain ⟨ha, hk, ht⟩ := h2 r n hm
    refine ⟨ha, hk, fun hlt => ?_, ht⟩
    rw [ha, Nat.mod_eq_of_lt hlt]
    exact hk
  · intro a
    constructor
    · intro hl
      by_contra hgt
      simp [classify_axles, hgt] at hl
    · intro hle
      simp [classify_axles, hle]

/-- Helper: a run of entry edges only, from an Active state, just advances
axle_count mod 2^32 and emits nothing. -/
lemma station_run_entry_on_active : ∀ (n : Nat) (s : sensor_fsm_t) (k : Nat),
    s.state = .SENSOR_ACTIVE → s.axle_count < UINT32_MOD →
    (station_run_counted s k (List.replicate n (gate_event.entryEdge 0))).1
      = { s with axle_count := (s.axle_count + n) % UINT32_MOD } := by
  intro n
  induction n with
  | zero =>
      intro s k h hb
      simp [station_run_counted, Nat.mod_eq_of_lt hb]
  | succ n ih =>
      intro s k h hb
      rw [List.replicate_succ]
      simp only [station_run_counted, station_step]
      rw [start_isr_on_active 0 h]
      have hih := ih { s with axle_count := (s.axle_count + 1) % UINT32_MOD }
        (cycle_count_step s k (gate_event.entryEdge 0)) h (Nat.mod_lt _ uint32_mod_pos)
      rw [hih]
      have hnum : ((s.axle_count + 1) % UINT32_MOD + n) % UINT32_MOD
          = (s.axle_count + (n + 1)) % UINT32_MOD := by
        rw [Nat.mod_add_mod]
        congr 1
        omega
      simp [hnum]

/-- Helper: the final FSM state of a run only depends on stepping the first
event, stated as an equation usable without evaluating the tail. -/
lemma station_run_counted_fst_cons (s : sensor_fsm_t) (k : Nat) (e : gate_event)
    (es : List gate_event) :
    (station_run_counted s k (e :: es)).1
      = (station_run_counted (station_step s e).1 (cycle_count_step s k e) es).1 := rfl

/-- Counterexample for C9 as stated: after 2^32 entry edges the station is
in a reachable Active state whose axle_count is 0, not at least 1. -/
theorem station_reachable_axle_zero :
    (station_run_counted sensor_fsm_init 0
        (List.replicate 4294967296 (gate_event.entryEdge 0))).1.state = .SENSOR_ACTIVE ∧
    (station_run_counted sensor_fsm_init 0
        (List.replicate 4294967296 (gate_event.entryEdge 0))).1.axle_count = 0 := by
  have hsplit : (4294967296 : Nat) = 4294967295 + 1 := by norm_num
  rw [hsplit, List.replicate_succ, station_run_counted_fst_cons]
  have hstep1 : (station_step sensor_fsm_init (gate_event.entryEdge 0)).1 =
      { state := .SENSOR_ACTIVE, start_time := 0, end_time := 0,
        axle_count := 1, speed_measured := false } := rfl
  have hkc : cycle_count_step sensor_fsm_init 0 (gate_event.entryEdge 0) = 1 := rfl
  rw [hstep1, hkc]
  have hrest := station_run_entry_on_active 4294967295
    { state := .SENSOR_ACTIVE, start_time := 0, end_time := 0,
      axle_count := 1, speed_measured := false } 1 rfl (by norm_num [UINT32_MOD])
  rw [hrest]
  exact ⟨rfl, rfl⟩
